import Mathlib

set_option maxHeartbeats 1000000

/-!
Shallow embedding of the secure settings store of `src/main.js`
(the `secureStore` module, `loadSettings` / `saveSettings` and the
`defaultSettings` object), for checking the specification's claims.

Modelling decisions:
* A JSON-shaped JavaScript value is `JVal` (JSON numbers carried as `Int`;
  the claims never do arithmetic on them, only truthiness of `0`).
* File contents are modelled symbolically: `FileContent.cipher v` is
  `safeStorage.encryptString (JSON.stringify v)`, `FileContent.plain v` is
  `JSON.stringify v`, and `FileContent.corrupt` stands for any byte string
  that neither decrypts nor parses (including the empty file).  A
  `safeStorage` ciphertext carries a version header and is never valid
  JSON, and `JSON.parse (JSON.stringify v) = v` for JSON-shaped values,
  so `decryptParse`/`parseJson` below are the composite read operations.
* The store only ever touches three concrete paths derived from
  `settingsPath = <userData>/settings.enc`:
  - the current path `settings.enc` itself (`FS.cur`),
  - the legacy path `filePath.replace ('.enc', '.json')`, i.e.
    `settings.json` (`FS.leg`),
  - the fallback path `filePath + '.json'`, i.e. `settings.enc.json`
    (`FS.fb`).
  The filesystem state is therefore the record `FS` of these three slots.
* `Env` carries the result of the `safeStorage.isEncryptionAvailable ()`
  probe and fault flags saying whether `fs.writeFileSync` throws at the
  current and the fallback path (the `try/catch` in `save` swallows the
  throw and returns `false`).
-/

/-- JSON-shaped JavaScript values, as produced by `JSON.parse`. -/
inductive JVal : Type where
  | jnull : JVal
  | jbool : Bool → JVal
  | jnum : Int → JVal
  | jstr : String → JVal
  | jobj : List (String × JVal) → JVal

/-- JavaScript truthiness of a JSON-shaped value (`if (loaded)`). -/
def JVal.truthy : JVal → Bool
  | .jnull => false
  | .jbool b => b
  | .jnum n => n != 0
  | .jstr s => s != ""
  | .jobj _ => true

/-- Field list an object spread `...v` contributes: objects spread their
entries, strings spread their indexed characters, other primitives
contribute nothing. -/
def JVal.spreadFields : JVal → List (String × JVal)
  | .jobj l => l
  | .jstr s => s.data.enum.map (fun p => (toString p.1, JVal.jstr (String.mk [p.2])))
  | _ => []

/-- The JS object literal spread `\x7b ...a, ...b \x7d` on field lists:
keys of `a` keep their position but take `b`'s value when `b` also has the
key; keys of `b` not in `a` are appended in `b`'s order. -/
def objSpread (a b : List (String × JVal)) : List (String × JVal) :=
  (a.map (fun kv => match b.lookup kv.1 with
    | some w => (kv.1, w)
    | none => kv))
  ++ b.filter (fun kv => (a.lookup kv.1).isNone)

/-- `\x7b ...d, ...l \x7d` as a `JVal` (used by `loadSettings`). -/
def mergeSpread (d l : JVal) : JVal :=
  .jobj (objSpread d.spreadFields l.spreadFields)

/-- Contents a settings file can hold, symbolically (see module docstring). -/
inductive FileContent : Type where
  | cipher : JVal → FileContent
  | plain : JVal → FileContent
  | corrupt : FileContent

/-- `JSON.parse (safeStorage.decryptString bytes)`: succeeds exactly on a
genuine ciphertext of a serialized value; on anything else
`decryptString` throws. -/
def decryptParse : FileContent → Option JVal
  | .cipher v => some v
  | _ => none

/-- `JSON.parse bytes`: succeeds exactly on serialized plaintext;
ciphertext and corrupt bytes make `JSON.parse` throw. -/
def parseJson : FileContent → Option JVal
  | .plain v => some v
  | _ => none

/-- The three filesystem slots the store can touch: the current path
`settings.enc`, the legacy path `settings.json`, and the fallback path
`settings.enc.json`. `none` = the file does not exist. -/
structure FS : Type where
  cur : Option FileContent
  leg : Option FileContent
  fb : Option FileContent

/-- Environment of one call: the capability probe's answer and whether
`fs.writeFileSync` throws at the current / fallback path. -/
structure Env : Type where
  encAvail : Bool
  curWriteFails : Bool
  fbWriteFails : Bool

/-- `defaultSettings` from `src/main.js` lines 15-19. -/
def defaultSettings : JVal :=
  .jobj [("startMinimized", .jbool false),
         ("minimizeToTray", .jbool true),
         ("startAtLogin", .jbool false)]

namespace secureStore

/-- `secureStore.save (filePath, data)`, `src/main.js` lines 29-48, at
`filePath = settingsPath`.  Serializes `data`; with encryption available
writes the ciphertext to the current path, otherwise writes the plain
serialization to `filePath + '.json'` (the fallback slot `fb`).  A throw
from `writeFileSync` is caught and turned into `false`; the target file
is then left as it was. -/
def save (env : Env) (fs : FS) (data : JVal) : FS × Bool :=
  if env.encAvail then
    if env.curWriteFails then (fs, false)
    else ({ fs with cur := some (.cipher data) }, true)
  else
    if env.fbWriteFails then (fs, false)
    else ({ fs with fb := some (.plain data) }, true)

/-- `secureStore.load (filePath, defaultValue)`, `src/main.js` lines
51-81, at `filePath = settingsPath`.  Mirrors the JS control flow: the
current file is tried first, but only decrypted when the probe is
available — with the probe unavailable control falls through to the
legacy block; a throw anywhere is caught and yields `defaultValue`.
In the legacy block a parsed value is migrated when the probe is
available: `secureStore.save` is called (its boolean result ignored)
and then `fs.unlinkSync (legacyPath)` removes the legacy file. -/
def load (env : Env) (fs : FS) (defaultValue : JVal) : FS × JVal :=
  let legacyStep : FS × JVal :=
    match fs.leg with
    | some c =>
      match parseJson c with
      | some parsed =>
        if env.encAvail then
          let fs1 := (save env fs parsed).1
          ({ fs1 with leg := none }, parsed)
        else (fs, parsed)
      | none => (fs, defaultValue)
    | none => (fs, defaultValue)
  match fs.cur with
  | some c =>
    if env.encAvail then
      match decryptParse c with
      | some v => (fs, v)
      | none => (fs, defaultValue)
    else legacyStep
  | none => legacyStep

/-- `secureStore.delete (filePath)`, `src/main.js` lines 84-98, at
`filePath = settingsPath`: unlinks the current file and the legacy file
when they exist and returns `true`.  The fallback slot is not touched. -/
def del (fs : FS) : FS × Bool :=
  ({ fs with cur := none, leg := none }, true)

end secureStore

/-- `loadSettings ()`, `src/main.js` lines 102-108: facade load; a truthy
loaded value is shallow-merged onto `defaultSettings` by object spread,
a falsy one is discarded in favour of the defaults. -/
def loadSettings (env : Env) (fs : FS) : FS × JVal :=
  let r := secureStore.load env fs .jnull
  if r.2.truthy then (r.1, mergeSpread defaultSettings r.2)
  else (r.1, defaultSettings)

/-- `saveSettings (settings)`, `src/main.js` lines 111-113. -/
def saveSettings (env : Env) (fs : FS) (settings : JVal) : FS × Bool :=
  secureStore.save env fs settings

/-- Observer: field of an object (`none` on non-objects / missing key). -/
def JVal.getField : JVal → String → Option JVal
  | .jobj l, k => l.lookup k
  | _, _ => none

/-! ### Lookup lemmas for the object-spread merge -/

theorem lookup_append_or {β : Type} (xs ys : List (String × β)) (k : String) :
    ((xs ++ ys).lookup k) = ((xs.lookup k).or (ys.lookup k)) := by
  induction xs with
  | nil => simp [List.lookup]
  | cons x t ih =>
    obtain ⟨a, v⟩ := x
    cases hkk : (k == a) <;> simp [List.lookup, hkk, ih]

theorem lookup_objSpread_map (a b : List (String × JVal)) (k : String) :
    ((a.map (fun kv => match b.lookup kv.1 with
        | some w => (kv.1, w)
        | none => kv)).lookup k)
      = (a.lookup k).map (fun v => (b.lookup k).getD v) := by
  induction a with
  | nil => simp [List.lookup]
  | cons x t ih =>
    obtain ⟨a', v⟩ := x
    by_cases hkk : k = a'
    · subst hkk
      cases hbk : b.lookup k <;> simp [List.lookup, hbk]
    · have hne : (k == a') = false := by simp [hkk]
      cases hbk : b.lookup a' <;> simp [List.lookup, hbk, hne, ih]

theorem lookup_objSpread_filter (a b : List (String × JVal)) (k : String) :
    ((b.filter (fun kv => (a.lookup kv.1).isNone)).lookup k)
      = (if (a.lookup k).isNone then b.lookup k else none) := by
  induction b with
  | nil => simp [List.lookup]
  | cons x t ih =>
    obtain ⟨a', v⟩ := x
    by_cases hkk : k = a'
    · subst hkk
      cases hak : a.lookup k <;> simp [List.lookup, List.filter, hak, ih]
    · have hne : (k == a') = false := by simp [hkk]
      cases hak : a.lookup a' <;> simp [List.lookup, List.filter, hak, hne, ih]

/-- Per-key semantics of the object spread: the right operand wins, the
left operand fills the gaps. -/
theorem lookup_objSpread (a b : List (String × JVal)) (k : String) :
    ((objSpread a b).lookup k) = ((b.lookup k).or (a.lookup k)) := by
  rw [objSpread, lookup_append_or, lookup_objSpread_map, lookup_objSpread_filter]
  cases a.lookup k <;> cases b.lookup k <;> simp

/-! ### Claims -/

/-- C1: the claim asserts the fallback round-trip — with encryption
unavailable, `save v` writes the serialization of `v` to the legacy path
`settings.json` and a subsequent `load` returns `v` shallow-merged onto
defaults.  The code violates this: `save` writes to
`filePath + '.json'` (`settings.enc.json`, the `fb` slot), while `load`
reads the legacy path `filePath.replace ('.enc', '.json')`
(`settings.json`, the `leg` slot), so the subsequent load finds neither
file and yields the bare defaults, which differ from `v` merged onto
defaults. -/
theorem C1_fallback_roundtrip_broken :
    secureStore.save ⟨false, false, false⟩ ⟨none, none, none⟩
        (.jobj [("startMinimized", .jbool true)])
      = (⟨none, none, some (.plain (.jobj [("startMinimized", .jbool true)]))⟩, true)
    ∧ (loadSettings ⟨false, false, false⟩
        ⟨none, none, some (.plain (.jobj [("startMinimized", .jbool true)]))⟩).2
      = defaultSettings
    ∧ defaultSettings
      ≠ mergeSpread defaultSettings (.jobj [("startMinimized", .jbool true)]) := by
  refine ⟨rfl, rfl, fun h => ?_⟩
  have h2 : (some (JVal.jbool false) : Option JVal) = some (.jbool true) :=
    congrArg (fun v => JVal.getField v "startMinimized") h
  simp at h2

/-- C2: the claim asserts that migration deletes the legacy file only
after the encrypted write succeeded.  The code violates this: in the
migration branch `secureStore.save (filePath, parsed)` is called and its
boolean result is ignored, then `fs.unlinkSync (legacyPath)` runs
unconditionally.  With the encrypted write failing
(`curWriteFails = true`: `save` catches the throw, writes nothing and
returns `false`), `load` still removes the legacy file — the final state
has no file at all, the only copy of the data is gone. -/
theorem C2_migration_deletes_despite_failed_write :
    secureStore.load ⟨true, true, false⟩
        ⟨none, some (.plain (.jobj [("startMinimized", .jbool true)])), none⟩ .jnull
      = (⟨none, none, none⟩, .jobj [("startMinimized", .jbool true)])
    ∧ secureStore.save ⟨true, true, false⟩
        ⟨none, some (.plain (.jobj [("startMinimized", .jbool true)])), none⟩
        (.jobj [("startMinimized", .jbool true)])
      = (⟨none, some (.plain (.jobj [("startMinimized", .jbool true)])), none⟩, false) :=
  ⟨rfl, rfl⟩

/-- C3 counterexample: with the current file present but the keystore
unavailable, `load` DOES fall through to the legacy plaintext file and
returns its value, not the defaults — the `if` around `decryptString`
only guards the decrypt, it does not return.  Concretely: current file
corrupt, probe unavailable, legacy holds
`\x7b "minimizeToTray": false \x7d`; `load` returns the legacy value and
`loadSettings` does not return the defaults. -/
theorem C3_counterexample :
    secureStore.load ⟨false, false, false⟩
        ⟨some .corrupt, some (.plain (.jobj [("minimizeToTray", .jbool false)])), none⟩
        .jnull
      = (⟨some .corrupt, some (.plain (.jobj [("minimizeToTray", .jbool false)])), none⟩,
         .jobj [("minimizeToTray", .jbool false)])
    ∧ (loadSettings ⟨false, false, false⟩
        ⟨some .corrupt, some (.plain (.jobj [("minimizeToTray", .jbool false)])), none⟩).2
      ≠ defaultSettings := by
  refine ⟨rfl, fun h => ?_⟩
  have h2 : (some (JVal.jbool false) : Option JVal) = some (.jbool true) :=
    congrArg (fun v => JVal.getField v "minimizeToTray") h
  simp at h2

/-- C3 amended: whenever the current path exists, encryption is
available, and decryption of its content fails (corrupt blob, key
mismatch), `load` returns the default without reading the legacy file,
without mutating the filesystem and without raising, and `loadSettings`
returns the default Settings.  (When the file exists but the keystore is
unavailable, the code instead falls through to the legacy path — see the
counterexample.) -/
theorem C3_decrypt_failure_returns_defaults (env : Env) (fs : FS) (c : FileContent)
    (henc : env.encAvail = true) (hcur : fs.cur = some c)
    (hdec : decryptParse c = none) :
    secureStore.load env fs .jnull = (fs, .jnull)
    ∧ loadSettings env fs = (fs, defaultSettings) := by
  constructor
  · simp [secureStore.load, hcur, henc, hdec]
  · simp [loadSettings, secureStore.load, hcur, henc, hdec, JVal.truthy]

/-- C3 witness: a corrupt current file with the probe available and a
legacy file present — `load` yields the default and leaves the
filesystem (including the legacy file) untouched. -/
theorem C3_witness :
    secureStore.load ⟨true, false, false⟩
        ⟨some .corrupt, some (.plain (.jobj [("minimizeToTray", .jbool false)])), none⟩
        .jnull
      = (⟨some .corrupt, some (.plain (.jobj [("minimizeToTray", .jbool false)])), none⟩,
         .jnull)
    ∧ loadSettings ⟨true, false, false⟩
        ⟨some .corrupt, some (.plain (.jobj [("minimizeToTray", .jbool false)])), none⟩
      = (⟨some .corrupt, some (.plain (.jobj [("minimizeToTray", .jbool false)])), none⟩,
         defaultSettings) :=
  C3_decrypt_failure_returns_defaults ⟨true, false, false⟩
    ⟨some .corrupt, some (.plain (.jobj [("minimizeToTray", .jbool false)])), none⟩
    .corrupt rfl rfl rfl

/-- C4: migration-once.  With encryption available, the encrypted write
succeeding, the current path absent, the legacy file holding object `v`
(and no stray fallback file), `loadSettings` returns `v` shallow-merged
onto defaults; afterwards no plaintext file exists and exactly one
encrypted file exists, whose decrypted content equals `v`; a second
`loadSettings` yields the same Settings and leaves the on-disk state
unchanged. -/
theorem C4_migration_once (env : Env) (fs : FS) (l : List (String × JVal))
    (henc : env.encAvail = true) (hw : env.curWriteFails = false)
    (hcur : fs.cur = none) (hleg : fs.leg = some (.plain (.jobj l)))
    (hfb : fs.fb = none) :
    loadSettings env fs
      = (⟨some (.cipher (.jobj l)), none, none⟩, mergeSpread defaultSettings (.jobj l))
    ∧ decryptParse (FileContent.cipher (.jobj l)) = some (.jobj l)
    ∧ loadSettings env ⟨some (.cipher (.jobj l)), none, none⟩
      = (⟨some (.cipher (.jobj l)), none, none⟩,
         mergeSpread defaultSettings (.jobj l)) := by
  obtain ⟨cur, leg, fb⟩ := fs
  simp only [FS.mk.injEq] at *
  subst hcur hleg hfb
  refine ⟨?_, rfl, ?_⟩ <;>
    simp [loadSettings, secureStore.load, secureStore.save, parseJson, decryptParse,
      JVal.truthy, henc, hw]

/-- C4 witness: legacy file `\x7b "startMinimized": true \x7d`,
encryption available: the file is migrated once and the merged settings
are returned. -/
theorem C4_witness :
    loadSettings ⟨true, false, false⟩
        ⟨none, some (.plain (.jobj [("startMinimized", .jbool true)])), none⟩
      = (⟨some (.cipher (.jobj [("startMinimized", .jbool true)])), none, none⟩,
         mergeSpread defaultSettings (.jobj [("startMinimized", .jbool true)]))
    ∧ loadSettings ⟨true, false, false⟩
        ⟨some (.cipher (.jobj [("startMinimized", .jbool true)])), none, none⟩
      = (⟨some (.cipher (.jobj [("startMinimized", .jbool true)])), none, none⟩,
         mergeSpread defaultSettings (.jobj [("startMinimized", .jbool true)])) :=
  ⟨(C4_migration_once ⟨true, false, false⟩
      ⟨none, some (.plain (.jobj [("startMinimized", .jbool true)])), none⟩
      [("startMinimized", .jbool true)] rfl rfl rfl rfl rfl).1,
   (C4_migration_once ⟨true, false, false⟩
      ⟨none, some (.plain (.jobj [("startMinimized", .jbool true)])), none⟩
      [("startMinimized", .jbool true)] rfl rfl rfl rfl rfl).2.2⟩

/-- C5: no migration without capability.  With the probe reporting
encryption unavailable, `load` never mutates the filesystem at all — in
particular the legacy file survives with unchanged content and nothing
is ever written to the current path; and when the current path is absent
and the legacy file holds serialized `v`, the legacy value `v` itself is
returned. -/
theorem C5_no_migration_without_capability (env : Env) (fs : FS) (v d : JVal)
    (henc : env.encAvail = false) :
    (secureStore.load env fs d).1 = fs
    ∧ (fs.cur = none → fs.leg = some (.plain v) →
        (secureStore.load env fs d).2 = v) := by
  constructor
  · cases hcur : fs.cur <;> cases hleg : fs.leg <;>
      simp [secureStore.load, hcur, hleg, henc] <;>
      cases parseJson _ <;> simp
  · intro hcur hleg
    simp [secureStore.load, hcur, hleg, henc, parseJson]

/-- C5 witness: legacy file `\x7b "startAtLogin": true \x7d`, probe
unavailable, current path absent — the value is returned and the
filesystem is untouched. -/
theorem C5_witness :
    (secureStore.load ⟨false, false, false⟩
        ⟨none, some (.plain (.jobj [("startAtLogin", .jbool true)])), none⟩ .jnull).1
      = ⟨none, some (.plain (.jobj [("startAtLogin", .jbool true)])), none⟩
    ∧ (secureStore.load ⟨false, false, false⟩
        ⟨none, some (.plain (.jobj [("startAtLogin", .jbool true)])), none⟩ .jnull).2
      = .jobj [("startAtLogin", .jbool true)] :=
  ⟨(C5_no_migration_without_capability ⟨false, false, false⟩
      ⟨none, some (.plain (.jobj [("startAtLogin", .jbool true)])), none⟩
      (.jobj [("startAtLogin", .jbool true)]) .jnull rfl).1,
   (C5_no_migration_without_capability ⟨false, false, false⟩
      ⟨none, some (.plain (.jobj [("startAtLogin", .jbool true)])), none⟩
      (.jobj [("startAtLogin", .jbool true)]) .jnull rfl).2 rfl rfl⟩

/-- C6: first run.  When neither the current nor the legacy file exists,
`loadSettings` returns exactly the default Settings and performs no
filesystem mutation, whatever the probe answers. -/
theorem C6_first_run_defaults (env : Env) (fs : FS)
    (hcur : fs.cur = none) (hleg : fs.leg = none) :
    loadSettings env fs = (fs, defaultSettings) := by
  simp [loadSettings, secureStore.load, hcur, hleg, JVal.truthy]

/-- C6 witness: the empty filesystem, probe available. -/
theorem C6_witness :
    loadSettings ⟨true, false, false⟩ ⟨none, none, none⟩
      = (⟨none, none, none⟩, defaultSettings) :=
  C6_first_run_defaults ⟨true, false, false⟩ ⟨none, none, none⟩ rfl rfl

/-- C7: shallow-merge semantics and preservation of unknown keys.  For a
stored object with field list `l`: `loadSettings` returns the object
spread of `l` onto the defaults; per key the loaded value wins and
absent keys are filled from the defaults; and saving the loaded result
stores (encrypted) exactly that merged object, so unknown keys of `l`
survive a load-then-save round-trip. -/
theorem C7_shallow_merge (env : Env) (fs : FS) (l : List (String × JVal)) (k : String)
    (henc : env.encAvail = true) (hw : env.curWriteFails = false)
    (hcur : fs.cur = some (.cipher (.jobj l))) :
    (loadSettings env fs).2 = mergeSpread defaultSettings (.jobj l)
    ∧ (mergeSpread defaultSettings (.jobj l)).getField k
      = ((l.lookup k).or (JVal.getField defaultSettings k))
    ∧ (saveSettings env (loadSettings env fs).1 ((loadSettings env fs).2)).1.cur
      = some (.cipher (mergeSpread defaultSettings (.jobj l))) := by
  refine ⟨?_, ?_, ?_⟩
  · simp [loadSettings, secureStore.load, hcur, henc, decryptParse, JVal.truthy]
  · simp [mergeSpread, JVal.getField, JVal.spreadFields, lookup_objSpread,
      defaultSettings]
  · simp [loadSettings, saveSettings, secureStore.load, secureStore.save, hcur,
      henc, hw, decryptParse, JVal.truthy]

/-- C7 witness: loaded blob `\x7b "startMinimized": true, "extraKey": 7 \x7d` —
the unknown key survives the merge (and hence the round-trip), and the
absent keys come from the defaults. -/
theorem C7_witness :
    (mergeSpread defaultSettings
        (.jobj [("startMinimized", .jbool true), ("extraKey", .jnum 7)])).getField
        "extraKey"
      = some (.jnum 7)
    ∧ (mergeSpread defaultSettings
        (.jobj [("startMinimized", .jbool true), ("extraKey", .jnum 7)])).getField
        "minimizeToTray"
      = some (.jbool true) :=
  ⟨((C7_shallow_merge ⟨true, false, false⟩
      ⟨some (.cipher (.jobj [("startMinimized", .jbool true), ("extraKey", .jnum 7)])),
        none, none⟩
      [("startMinimized", .jbool true), ("extraKey", .jnum 7)] "extraKey"
      rfl rfl rfl).2.1).trans (by rfl),
   ((C7_shallow_merge ⟨true, false, false⟩
      ⟨some (.cipher (.jobj [("startMinimized", .jbool true), ("extraKey", .jnum 7)])),
        none, none⟩
      [("startMinimized", .jbool true), ("extraKey", .jnum 7)] "minimizeToTray"
      rfl rfl rfl).2.1).trans (by rfl)⟩

/-- C8: delete removes the current and the legacy file when present and
returns `true`; when neither exists it is a no-op success (the
filesystem state is returned unchanged), and running it twice gives the
same state — idempotence. -/
theorem C8_delete_idempotent (fs : FS) :
    (secureStore.del fs).2 = true
    ∧ (secureStore.del fs).1 = ⟨none, none, fs.fb⟩
    ∧ (fs.cur = none → fs.leg = none → secureStore.del fs = (fs, true))
    ∧ secureStore.del (secureStore.del fs).1 = ((secureStore.del fs).1, true) := by
  obtain ⟨cur, leg, fb⟩ := fs
  refine ⟨rfl, rfl, ?_, rfl⟩
  intro hcur hleg
  simp only at hcur hleg
  subst hcur hleg
  rfl

/-- C8 witness: deleting on the empty filesystem succeeds and changes
nothing; a second delete does the same. -/
theorem C8_witness :
    secureStore.del ⟨none, none, none⟩ = (⟨none, none, none⟩, true)
    ∧ secureStore.del (secureStore.del ⟨none, none, none⟩).1
      = ((secureStore.del ⟨none, none, none⟩).1, true) :=
  ⟨(C8_delete_idempotent ⟨none, none, none⟩).2.2.1 rfl rfl,
   (C8_delete_idempotent ⟨none, none, none⟩).2.2.2⟩

/-- C9: the plaintext fallback file survives delete.  After a `save`
with encryption unavailable (which wrote `settings.enc.json`, the `fb`
slot), `delete` removes only the current and the legacy slot, so the
fallback file is still there with the saved plaintext. -/
theorem C9_fallback_survives_delete (env : Env) (fs : FS) (v : JVal)
    (henc : env.encAvail = false) (hfb : env.fbWriteFails = false) :
    ((secureStore.save env fs v).1).fb = some (.plain v)
    ∧ (secureStore.del (secureStore.save env fs v).1).1
      = ⟨none, none, some (.plain v)⟩ := by
  constructor <;> simp [secureStore.save, secureStore.del, henc, hfb]

/-- C9 witness: fallback-save the defaults on the empty filesystem, then
delete — the plaintext file is still present. -/
theorem C9_witness :
    ((secureStore.save ⟨false, false, false⟩ ⟨none, none, none⟩ defaultSettings).1).fb
      = some (.plain defaultSettings)
    ∧ (secureStore.del
        (secureStore.save ⟨false, false, false⟩ ⟨none, none, none⟩ defaultSettings).1).1
      = ⟨none, none, some (.plain defaultSettings)⟩ :=
  C9_fallback_survives_delete ⟨false, false, false⟩ ⟨none, none, none⟩
    defaultSettings rfl rfl

/-- C10: falsy stored values are discarded by the facade.  When the
current file decrypts to a falsy value `v` (null, false, 0 or the empty
string), the underlying `secureStore.load` returns `v` without error and
without touching the filesystem, but `loadSettings` discards it and
returns exactly the default Settings. -/
theorem C10_falsy_discarded (env : Env) (fs : FS) (v : JVal)
    (henc : env.encAvail = true) (hcur : fs.cur = some (.cipher v))
    (hfalsy : v.truthy = false) :
    secureStore.load env fs .jnull = (fs, v)
    ∧ loadSettings env fs = (fs, defaultSettings) := by
  constructor
  · simp [secureStore.load, hcur, henc, decryptParse]
  · simp [loadSettings, secureStore.load, hcur, henc, decryptParse, hfalsy]

/-- C10 witness: an encrypted file holding `false` — the store returns
`false`, the facade returns the defaults. -/
theorem C10_witness :
    secureStore.load ⟨true, false, false⟩
        ⟨some (.cipher (.jbool false)), none, none⟩ .jnull
      = (⟨some (.cipher (.jbool false)), none, none⟩, .jbool false)
    ∧ loadSettings ⟨true, false, false⟩ ⟨some (.cipher (.jbool false)), none, none⟩
      = (⟨some (.cipher (.jbool false)), none, none⟩, defaultSettings) :=
  C10_falsy_discarded ⟨true, false, false⟩ ⟨some (.cipher (.jbool false)), none, none⟩
    (.jbool false) rfl rfl rfl
